import Mathlib

/-!
Formal model of the Bravo restaurant billing program (`src/project2.py`).

The program is a single-session point-of-sale form: a cart maps item names
to a unit price and a quantity, a coupon resolver turns a code into a
discount, a pricing block re-clamps the stored discount and computes
GST and total, and two exporters (JSON record, PDF) render a finalized
bill.  Monetary amounts are modelled as exact rationals (ℚ), quantities
as naturals, and the Streamlit session state as an explicit record that
each operation transforms.  Timestamps are passed in explicitly as the
`YYYYMMDDHHMMSS` string the program formats from the wall clock.
-/

namespace Bravo

/-- Model of Python `str.upper` on a single ASCII character. -/
def pyUpperChar (c : Char) : Char :=
  if 'a' ≤ c ∧ c ≤ 'z' then Char.ofNat (c.toNat - 32) else c

/-- Model of Python `str.upper` (the coupon codes involved are ASCII). -/
def pyUpper (s : String) : String := String.mk (s.data.map pyUpperChar)

/-- Model of Python `str.isspace` for the characters `str.strip` removes. -/
def pyIsSpace (c : Char) : Bool :=
  c = ' ' || c = '\t' || c = '\n' || c = '\r' || c = '\x0b' || c = '\x0c'

/-- Model of Python `str.strip`: drop leading and trailing whitespace. -/
def pyStrip (s : String) : String :=
  String.mk (((s.data.dropWhile pyIsSpace).reverse.dropWhile pyIsSpace).reverse)

/-- The tax rate `GST_RATE = 0.18` (project2.py line 30). -/
def GST_RATE : ℚ := 18 / 100

/-- The two coupon kinds appearing in the `COUPONS` registry. -/
inductive CouponKind
  | percent
  | flat
deriving DecidableEq, Repr

/-- One entry of the `COUPONS` registry: a kind and a value. -/
structure CouponRule where
  kind : CouponKind
  value : ℚ
deriving DecidableEq, Repr

/-- The fixed coupon registry `COUPONS` (project2.py lines 36-40). -/
def COUPONS : List (String × CouponRule) :=
  [("BRAVO10", ⟨.percent, 10⟩),
   ("WELCOME50", ⟨.flat, 50⟩),
   ("BRAVO100", ⟨.flat, 100⟩)]

/-- The fixed payment-method list `PAYMENT_METHODS` (project2.py line 43). -/
def PAYMENT_METHODS : List String :=
  ["Cash", "Card (Credit/Debit)", "UPI", "Net Banking"]

/-- The static menu `MENU` (project2.py lines 47-75): category → item → price. -/
def MENU : List (String × List (String × ℚ)) :=
  [("Breakfast",
    [("Idli", 30), ("Ghee Dosa", 65), ("Puri", 40), ("Mysore Bonda", 50),
     ("Egg Omelette", 50), ("Chapati", 35)]),
   ("Main Course",
    [("Veg Biryani", 259), ("Chicken Biryani", 349), ("Mutton Biryani", 499),
     ("Veg Fried Rice", 150), ("Egg Fried Rice", 170)]),
   ("Beverages",
    [("Tea", 25), ("Coffee", 40), ("Soft Drink", 45)]),
   ("Desserts",
    [("Gulab Jamun", 60), ("Ice Cream Chocolate", 80), ("Vanilla", 70),
     ("Kunafa", 110), ("Pastries", 50)])]

/-- Menu lookup: the unit price of `item` in `category`, if present. -/
def menuPrice (category item : String) : Option ℚ :=
  (MENU.lookup category).bind (fun items => items.lookup item)

/-- One cart line: the price and qty fields of the per-item dict value. -/
structure CartLine where
  price : ℚ
  qty : ℕ
deriving DecidableEq, Repr

/-- The cart dict `st.session_state.cart`: insertion-ordered map
from item name to line. -/
abbrev Cart := List (String × CartLine)

/-- The Streamlit session state fields the billing core uses
(project2.py lines 79-97). -/
structure SessionState where
  cart : Cart
  bill_generated : Bool
  applied_coupon : Option String
  discount_amount : ℚ
  payment_method : Option String
  customer_name : String
  bill_number : String
deriving DecidableEq, Repr

/-- Bill-number format: the literal prefix BRV followed by the
second-resolution timestamp the program formats from the wall clock;
the timestamp string is an explicit argument of the model. -/
def mkBillNumber (timestamp : String) : String := "BRV" ++ timestamp

/-- Defaults of `init_session_state` (project2.py lines 79-95). -/
def init_session_state (timestamp : String) : SessionState :=
  { cart := [], bill_generated := false, applied_coupon := none,
    discount_amount := 0, payment_method := none, customer_name := "",
    bill_number := mkBillNumber timestamp }

/-- Cart update of `add_to_cart` (project2.py lines 116-121): if the item
key is present, increment its qty in place; else append a new line. -/
def cartAdd (cart : Cart) (item : String) (price : ℚ) (qty : ℕ) : Cart :=
  if cart.any (fun l => l.1 == item) then
    cart.map (fun l => if l.1 == item then (l.1, ⟨l.2.price, l.2.qty + qty⟩) else l)
  else
    cart ++ [(item, ⟨price, qty⟩)]

/-- The operation `add_to_cart(item, price, qty)` (project2.py lines 116-122). -/
def add_to_cart (s : SessionState) (item : String) (price : ℚ) (qty : ℕ) :
    SessionState :=
  { s with cart := cartAdd s.cart item price qty, bill_generated := false }

/-- Cart update of `remove_item`: `cart.pop(item, None)` removes the
entry with that key if present. -/
def cartRemove (cart : Cart) (item : String) : Cart :=
  cart.eraseP (fun l => l.1 == item)

/-- The operation `remove_item(item)` (project2.py lines 125-128). -/
def remove_item (s : SessionState) (item : String) : SessionState :=
  { s with cart := cartRemove s.cart item, bill_generated := false }

/-- The operation `clear_cart()` (project2.py lines 131-138). -/
def clear_cart (s : SessionState) (timestamp : String) : SessionState :=
  { s with cart := [], bill_generated := false, applied_coupon := none,
           discount_amount := 0, payment_method := none,
           bill_number := mkBillNumber timestamp }

/-- The function `compute_subtotal()` (project2.py lines 141-143). -/
def compute_subtotal (cart : Cart) : ℚ :=
  (cart.map (fun l => l.2.price * (l.2.qty : ℚ))).sum

/-- The coupon resolver `calc_discount(subtotal, coupon_code)`
(project2.py lines 146-165); returns `(discount, error_message)`. -/
def calc_discount (subtotal : ℚ) (coupon_code : String) : ℚ × Option String :=
  let code := pyUpper (pyStrip coupon_code)
  if code = "" then (0, some "Enter a coupon code.")
  else
    match COUPONS.lookup code with
    | none => (0, some "Invalid coupon code.")
    | some rule =>
        let discount :=
          match rule.kind with
          | .percent => subtotal * (rule.value / 100)
          | .flat => rule.value
        (max 0 (min discount subtotal), none)

/-- The Apply-coupon handler (project2.py lines 577-588): on error, reset
coupon state; on success, store the canonicalized code and the discount. -/
def apply_coupon (s : SessionState) (coupon_input : String) : SessionState :=
  let subtotal_now := compute_subtotal s.cart
  let r := calc_discount subtotal_now coupon_input
  match r.2 with
  | some _ => { s with applied_coupon := none, discount_amount := 0 }
  | none => { s with applied_coupon := some (pyUpper (pyStrip coupon_input)),
                     discount_amount := r.1 }

/-- The amounts the bill-summary block computes (project2.py lines 606-610);
the PDF exporter computes the same five amounts (lines 237-241). -/
structure BillAmounts where
  subtotal : ℚ
  discount : ℚ
  after_discount : ℚ
  gst : ℚ
  total : ℚ
deriving DecidableEq, Repr

/-- The bill summary / PDF pricing computation (project2.py lines 606-610
and 237-241): re-clamp the stored discount against the live subtotal. -/
def billSummary (s : SessionState) : BillAmounts :=
  let subtotal := compute_subtotal s.cart
  let discount := min s.discount_amount subtotal
  let after_discount := max 0 (subtotal - discount)
  let gst := after_discount * GST_RATE
  { subtotal := subtotal, discount := discount,
    after_discount := after_discount, gst := gst,
    total := after_discount + gst }

/-- One entry of the `items` array of the JSON export. -/
structure BillItemJson where
  name : String
  quantity : ℕ
  price : ℚ
  amount : ℚ
deriving DecidableEq, Repr

/-- The fields of the JSON bill record (the `timestamp` field, taken from
the wall clock at write time, is outside the model). -/
structure BillJson where
  bill_number : String
  customer_name : String
  items : List BillItemJson
  subtotal : ℚ
  coupon : Option String
  discount : ℚ
  gst : ℚ
  total : ℚ
  payment_method : Option String
deriving DecidableEq, Repr

/-- The JSON exporter `save_bill_json()` (project2.py lines 278-305):
note that `discount`,
`gst` and `total` use `st.session_state.discount_amount` directly, with
no `min`/`max` clamping. -/
def save_bill_json (s : SessionState) : BillJson :=
  { bill_number := s.bill_number,
    customer_name := s.customer_name,
    items := s.cart.map (fun l => ⟨l.1, l.2.qty, l.2.price, (l.2.qty : ℚ) * l.2.price⟩),
    subtotal := compute_subtotal s.cart,
    coupon := s.applied_coupon,
    discount := s.discount_amount,
    gst := (compute_subtotal s.cart - s.discount_amount) * GST_RATE,
    total := (compute_subtotal s.cart - s.discount_amount) * (1 + GST_RATE),
    payment_method := s.payment_method }

/-- The finalize errors of the spec: `ValidationError` for an empty cart
(the checkout pane, lines 527-530, never offers finalize then) and
`MissingPaymentMethod` for a missing payment selection (lines 649-653). -/
inductive FinalizeError
  | validationError
  | missingPaymentMethod
deriving DecidableEq, Repr

/-- Finalize: the Generate-Bill flow (project2.py lines 527-530, 646-653,
664-665).  An empty cart shows only the empty-cart pane (no finalize);
with no payment method the handler errors and changes nothing; otherwise
`bill_generated` is set and the JSON record is written. -/
def generate_bill (s : SessionState) :
    Option FinalizeError × SessionState × Option BillJson :=
  if s.cart = [] then (some .validationError, s, none)
  else
    match s.payment_method with
    | none => (some .missingPaymentMethod, s, none)
    | some _ =>
        let s' := { s with bill_generated := true }
        (none, s', some (save_bill_json s'))

/-- Rounding to two fraction digits, applied only at display/export
boundaries (the `:.2f` format strings). -/
def round2 (q : ℚ) : ℚ := (round (q * 100) : ℤ) / 100

/-- Spec section 8 re-clamp scenario, step 1: a cart whose subtotal is 500
(two generic lines, 450 + 50). -/
def sCart500 : SessionState :=
  add_to_cart (add_to_cart (init_session_state "20260101120000") "A" 450 1) "B" 50 1

/-- Spec section 8 re-clamp scenario, step 2: apply the flat-100 coupon at
subtotal 500, storing discount 100. -/
def sCoupon100 : SessionState := apply_coupon sCart500 "BRAVO100"

/-- Spec section 8 re-clamp scenario, step 3: remove the 450-line, shrinking
the subtotal to 50 while the stored discount stays 100. -/
def sShrunk50 : SessionState := remove_item sCoupon100 "A"

/-- Spec section 8 end-to-end cart: Veg Biryani ×2 at 259 and Tea ×1 at 25. -/
def sBiryaniTea : SessionState :=
  add_to_cart (add_to_cart (init_session_state "20260101120000") "Veg Biryani" 259 2)
    "Tea" 25 1

/-- Spec section 8 end-to-end state after applying the 10-percent coupon. -/
def sBravo10 : SessionState := apply_coupon sBiryaniTea "BRAVO10"

/-! ### Helper lemmas on carts -/

theorem any_key_eq_false {c : Cart} {item : String} (h : ∀ l ∈ c, l.1 ≠ item) :
    c.any (fun l => l.1 == item) = false := by
  simp only [List.any_eq_false, beq_iff_eq]
  exact h

theorem cartAdd_not_mem {c : Cart} {item : String} (p : ℚ) (q : ℕ)
    (h : ∀ l ∈ c, l.1 ≠ item) :
    cartAdd c item p q = c ++ [(item, ⟨p, q⟩)] := by
  unfold cartAdd
  rw [any_key_eq_false h]
  simp

theorem map_keyUpdate_id {c : Cart} {item : String} (qty : ℕ)
    (h : ∀ l ∈ c, l.1 ≠ item) :
    c.map (fun l => if l.1 == item then (l.1, ⟨l.2.price, l.2.qty + qty⟩) else l)
      = c := by
  induction c with
  | nil => rfl
  | cons hd tl ih =>
    have hhd : ¬((hd.1 == item) = true) := by
      simp only [beq_iff_eq]
      exact h hd (List.mem_cons_self hd tl)
    simp only [List.map_cons, if_neg hhd]
    rw [ih (fun l hl => h l (List.mem_cons_of_mem hd hl))]

theorem lookup_append_single {c : Cart} {item : String} (x : CartLine)
    (h : ∀ l ∈ c, l.1 ≠ item) :
    (c ++ [(item, x)]).lookup item = some x := by
  induction c with
  | nil => simp [List.lookup]
  | cons hd tl ih =>
    obtain ⟨k, v⟩ := hd
    have hk : k ≠ item := h (k, v) (List.mem_cons_self _ _)
    have hb : (item == k) = false := by
      simp only [beq_eq_false_iff_ne]
      exact fun he => hk he.symm
    rw [List.cons_append, List.lookup_cons, hb]
    exact ih (fun l hl => h l (List.mem_cons_of_mem _ hl))

/-! ### Evaluation of the concrete scenario states -/

theorem sCart500_eq :
    sCart500 =
      { cart := [("A", ⟨450, 1⟩), ("B", ⟨50, 1⟩)], bill_generated := false,
        applied_coupon := none, discount_amount := 0, payment_method := none,
        customer_name := "", bill_number := "BRV20260101120000" } := by
  decide

theorem subtotal_500 :
    compute_subtotal [("A", ⟨450, 1⟩), ("B", ⟨50, 1⟩)] = 500 := by
  norm_num [compute_subtotal]

theorem calc_discount_500_BRAVO100 :
    calc_discount 500 "BRAVO100" = (100, none) := by
  decide

theorem sCoupon100_eq :
    sCoupon100 =
      { cart := [("A", ⟨450, 1⟩), ("B", ⟨50, 1⟩)], bill_generated := false,
        applied_coupon := some "BRAVO100", discount_amount := 100,
        payment_method := none, customer_name := "",
        bill_number := "BRV20260101120000" } := by
  have hcanon : pyUpper (pyStrip "BRAVO100") = "BRAVO100" := by decide
  rw [sCoupon100, sCart500_eq]
  simp [apply_coupon, subtotal_500, calc_discount_500_BRAVO100, hcanon]

theorem sShrunk50_eq :
    sShrunk50 =
      { cart := [("B", ⟨50, 1⟩)], bill_generated := false,
        applied_coupon := some "BRAVO100", discount_amount := 100,
        payment_method := none, customer_name := "",
        bill_number := "BRV20260101120000" } := by
  rw [sShrunk50, sCoupon100_eq]
  decide

theorem subtotal_50 : compute_subtotal [("B", ⟨50, 1⟩)] = 50 := by
  norm_num [compute_subtotal]

theorem sBiryaniTea_eq :
    sBiryaniTea =
      { cart := [("Veg Biryani", ⟨259, 2⟩), ("Tea", ⟨25, 1⟩)],
        bill_generated := false, applied_coupon := none, discount_amount := 0,
        payment_method := none, customer_name := "",
        bill_number := "BRV20260101120000" } := by
  decide

theorem subtotal_543 :
    compute_subtotal [("Veg Biryani", ⟨259, 2⟩), ("Tea", ⟨25, 1⟩)] = 543 := by
  norm_num [compute_subtotal]

theorem calc_discount_543_BRAVO10 :
    calc_discount 543 "BRAVO10" = (543 / 10, none) := by
  have h1 : pyUpper (pyStrip "BRAVO10") = "BRAVO10" := by decide
  have h2 : COUPONS.lookup "BRAVO10" = some ⟨.percent, 10⟩ := by decide
  simp [calc_discount, h1, h2, min_def, max_def]
  norm_num

theorem sBravo10_eq :
    sBravo10 =
      { cart := [("Veg Biryani", ⟨259, 2⟩), ("Tea", ⟨25, 1⟩)],
        bill_generated := false, applied_coupon := some "BRAVO10",
        discount_amount := 543 / 10, payment_method := none,
        customer_name := "", bill_number := "BRV20260101120000" } := by
  have hcanon : pyUpper (pyStrip "BRAVO10") = "BRAVO10" := by decide
  rw [sBravo10, sBiryaniTea_eq]
  simp [apply_coupon, subtotal_543, calc_discount_543_BRAVO10, hcanon]

/-! ### Claim theorems -/

/-- C1: for every session state the bill-summary computation returns
effective discount = min(stored discount, subtotal), taxable amount =
max(0, subtotal - effective discount), tax = taxable × 0.18, and total =
taxable + tax; and in the shrink scenario (coupon applied at subtotal 500
storing discount 100, cart then shrunk to subtotal 50) the recomputed
effective discount is 50, not 100. -/
theorem pricing_engine_reclamps (s : SessionState) :
    (billSummary s).discount = min s.discount_amount (compute_subtotal s.cart) ∧
    (billSummary s).after_discount =
      max 0 (compute_subtotal s.cart - (billSummary s).discount) ∧
    (billSummary s).gst = (billSummary s).after_discount * (18 / 100) ∧
    (billSummary s).total = (billSummary s).after_discount + (billSummary s).gst ∧
    compute_subtotal sCoupon100.cart = 500 ∧
    sCoupon100.discount_amount = 100 ∧
    compute_subtotal sShrunk50.cart = 50 ∧
    sShrunk50.discount_amount = 100 ∧
    (billSummary sShrunk50).discount = 50 := by
  refine ⟨rfl, rfl, rfl, rfl, ?_, ?_, ?_, ?_, ?_⟩
  · rw [sCoupon100_eq]; exact subtotal_500
  · rw [sCoupon100_eq]
  · rw [sShrunk50_eq]; exact subtotal_50
  · rw [sShrunk50_eq]
  · rw [sShrunk50_eq]
    show min (100 : ℚ) (compute_subtotal [("B", ⟨50, 1⟩)]) = 50
    rw [subtotal_50]
    decide

/-- C2: the JSON export does NOT round-trip the re-clamped pricing values.
At the shrunk-cart state (subtotal 50, stored discount 100)
`save_bill_json` writes discount 100, gst -9 and total -59, while the
pricing computation used by the summary and the PDF yields discount 50,
gst 0, total 0: the stored discount is trusted unclamped by the JSON
exporter, contradicting the claim. -/
theorem save_bill_json_trusts_stored_discount :
    (save_bill_json sShrunk50).discount = 100 ∧
    (billSummary sShrunk50).discount = 50 ∧
    (save_bill_json sShrunk50).gst = -9 ∧
    (billSummary sShrunk50).gst = 0 ∧
    (save_bill_json sShrunk50).total = -59 ∧
    (billSummary sShrunk50).total = 0 := by
  rw [sShrunk50_eq]
  refine ⟨rfl, ?_, ?_, ?_, ?_, ?_⟩ <;>
    norm_num [save_bill_json, billSummary, compute_subtotal, GST_RATE,
      min_def, max_def]

/-- C3: for subtotal s ≥ 0 the coupon resolver returns (0, error) on an
empty trimmed code or an unknown code; a percentage coupon yields
s × value/100, a flat coupon yields its value clamped by the subtotal
(so a flat value above the subtotal yields exactly the subtotal), and the
returned discount always lies in the range [0, s]. -/
theorem calc_discount_resolver (s : ℚ) (code : String) (hs : 0 ≤ s) :
    (pyUpper (pyStrip code) = "" →
      calc_discount s code = (0, some "Enter a coupon code.")) ∧
    (COUPONS.lookup (pyUpper (pyStrip code)) = none →
      pyUpper (pyStrip code) ≠ "" →
      calc_discount s code = (0, some "Invalid coupon code.")) ∧
    (∀ v : ℚ, COUPONS.lookup (pyUpper (pyStrip code)) = some ⟨.percent, v⟩ →
      0 ≤ v → v ≤ 100 → calc_discount s code = (s * (v / 100), none)) ∧
    (∀ v : ℚ, COUPONS.lookup (pyUpper (pyStrip code)) = some ⟨.flat, v⟩ →
      0 ≤ v → calc_discount s code = (min v s, none)) ∧
    (∀ v : ℚ, COUPONS.lookup (pyUpper (pyStrip code)) = some ⟨.flat, v⟩ →
      s < v → (calc_discount s code).1 = s) ∧
    0 ≤ (calc_discount s code).1 ∧ (calc_discount s code).1 ≤ s := by
  have hempty : COUPONS.lookup "" = none := by decide
  refine ⟨?_, ?_, ?_, ?_, ?_, ?_⟩
  · intro h0
    simp [calc_discount, h0]
  · intro hl h0
    simp [calc_discount, h0, hl]
  · intro v hv h0v hv100
    have h0 : pyUpper (pyStrip code) ≠ "" := by
      intro he; rw [he, hempty] at hv; cases hv
    have hd1 : 0 ≤ s * (v / 100) := by positivity
    have hd2 : s * (v / 100) ≤ s := by nlinarith
    simp [calc_discount, h0, hv, min_eq_left hd2, max_eq_right hd1]
  · intro v hv h0v
    have h0 : pyUpper (pyStrip code) ≠ "" := by
      intro he; rw [he, hempty] at hv; cases hv
    simp [calc_discount, h0, hv, max_eq_right (le_min h0v hs)]
  · intro v hv hsv
    have h0 : pyUpper (pyStrip code) ≠ "" := by
      intro he; rw [he, hempty] at hv; cases hv
    simp [calc_discount, h0, hv, min_eq_right (le_of_lt hsv), max_eq_right hs]
  · by_cases h0 : pyUpper (pyStrip code) = ""
    · refine ⟨?_, ?_⟩ <;> simp [calc_discount, h0, hs]
    · cases hv : COUPONS.lookup (pyUpper (pyStrip code)) with
      | none => refine ⟨?_, ?_⟩ <;> simp [calc_discount, h0, hv, hs]
      | some rule =>
        have hshape : (calc_discount s code).1 =
            max 0 (min (match rule.kind with
              | .percent => s * (rule.value / 100)
              | .flat => rule.value) s) := by
          simp [calc_discount, h0, hv]
        rw [hshape]
        exact ⟨le_max_left 0 _, max_le hs (min_le_right _ s)⟩

/-- C3 witness: at subtotal 30, the flat-50 coupon (code given with
surrounding whitespace and in lower case) yields discount 30, the
subtotal itself. -/
theorem calc_discount_resolver_witness :
    (0 : ℚ) ≤ 30 ∧ (calc_discount 30 "  welcome50 ").1 = 30 := by
  refine ⟨by norm_num, ?_⟩
  have h := calc_discount_resolver 30 "  welcome50 " (by norm_num)
  exact h.2.2.2.2.1 50 (by decide) (by norm_num)

/-- C4 counterexample: clearing in the same second in which the previous
bill number was generated reproduces the identical bill number, so the
fresh bill number is not always distinct from the one held before the
call. -/
theorem clear_cart_same_second_collision :
    (clear_cart (init_session_state "20260101120000")
        "20260101120000").bill_number =
      (init_session_state "20260101120000").bill_number := rfl

/-- C4 (amended): `clear_cart` empties the cart, resets coupon, discount,
payment method and the bill-generated flag, and derives a fresh bill
number from the current timestamp; the fresh number is distinct from the
previous one whenever the previous bill number differs from the one the
current timestamp yields (same-second calls can collide). -/
theorem clear_cart_resets (s : SessionState) (ts : String) :
    (clear_cart s ts).cart = [] ∧
    (clear_cart s ts).applied_coupon = none ∧
    (clear_cart s ts).discount_amount = 0 ∧
    (clear_cart s ts).payment_method = none ∧
    (clear_cart s ts).bill_generated = false ∧
    (clear_cart s ts).bill_number = mkBillNumber ts ∧
    (s.bill_number ≠ mkBillNumber ts →
      (clear_cart s ts).bill_number ≠ s.bill_number) := by
  refine ⟨rfl, rfl, rfl, rfl, rfl, rfl, ?_⟩
  intro h hc
  exact h hc.symm

/-- C4 witness: clearing one second later does produce a distinct bill
number, and all derived order state is reset. -/
theorem clear_cart_resets_witness :
    ((init_session_state "20260101120000").bill_number ≠
        mkBillNumber "20260101120001") ∧
    (clear_cart (init_session_state "20260101120000")
        "20260101120001").bill_number ≠
      (init_session_state "20260101120000").bill_number := by
  refine ⟨by decide, ?_⟩
  exact (clear_cart_resets (init_session_state "20260101120000")
    "20260101120001").2.2.2.2.2.2 (by decide)

/-- C5: finalize on an empty cart fails with ValidationError, finalize
without a payment method fails with MissingPaymentMethod; in both cases
the returned state is the input state (cart and pricing state unchanged,
bill-generated flag still false) and no bill record is produced. -/
theorem generate_bill_failures (s : SessionState)
    (hflag : s.bill_generated = false) :
    (s.cart = [] →
      generate_bill s = (some .validationError, s, none) ∧
      (generate_bill s).2.1.bill_generated = false) ∧
    (s.cart ≠ [] → s.payment_method = none →
      generate_bill s = (some .missingPaymentMethod, s, none) ∧
      (generate_bill s).2.1.bill_generated = false) := by
  constructor
  · intro h
    have he : generate_bill s = (some .validationError, s, none) := by
      simp [generate_bill, h]
    exact ⟨he, by rw [he]; exact hflag⟩
  · intro h hp
    have he : generate_bill s = (some .missingPaymentMethod, s, none) := by
      simp [generate_bill, h, hp]
    exact ⟨he, by rw [he]; exact hflag⟩

/-- C5 witness: the fresh empty-cart session fails validation, and the
Biryani-Tea cart with no payment method selected fails with
MissingPaymentMethod; both leave the state untouched. -/
theorem generate_bill_failures_witness :
    ((init_session_state "20260101120000").bill_generated = false ∧
      generate_bill (init_session_state "20260101120000") =
        (some .validationError, init_session_state "20260101120000", none)) ∧
    (sBiryaniTea.bill_generated = false ∧
      generate_bill sBiryaniTea =
        (some .missingPaymentMethod, sBiryaniTea, none)) := by
  constructor
  · exact ⟨rfl, ((generate_bill_failures _ rfl).1 rfl).1⟩
  · exact ⟨by decide,
      ((generate_bill_failures sBiryaniTea (by decide)).2
        (by decide) (by decide)).1⟩

/-- C6 counterexample: on a cart that already holds Tea with quantity 7 at
price 25, adding Tea with quantity 2 at price 30 and then quantity 3 at
price 40 yields the single Tea line with quantity 12 and price 25 — not
quantity 2 + 3 = 5 with price 30 as the claim, quantified over every
cart, states. -/
theorem cartAdd_twice_preexisting_counterexample :
    cartAdd (cartAdd [("Tea", ⟨25, 7⟩)] "Tea" 30 2) "Tea" 40 3 =
      [("Tea", ⟨25, 12⟩)] ∧
    ([("Tea", ⟨25, 12⟩)] : Cart) ≠ [("Tea", ⟨30, 2 + 3⟩)] := by
  decide

/-- C6 (amended): for every cart in which the item is not already present,
adding the item with quantity a and price p1, then the same
item again with quantity b and any price p2, yields a single line for the
item with quantity a + b and the unit price p1 of the first add. -/
theorem cartAdd_twice_additive (c : Cart) (item : String) (p1 p2 : ℚ)
    (a b : ℕ) (h : ∀ l ∈ c, l.1 ≠ item) :
    cartAdd (cartAdd c item p1 a) item p2 b = c ++ [(item, ⟨p1, a + b⟩)] ∧
    (cartAdd (cartAdd c item p1 a) item p2 b).lookup item =
      some ⟨p1, a + b⟩ := by
  have h1 : cartAdd c item p1 a = c ++ [(item, ⟨p1, a⟩)] := cartAdd_not_mem p1 a h
  have hany : ((c ++ ([(item, ⟨p1, a⟩)] : Cart)).any (fun l => l.1 == item))
      = true := by
    simp [List.any_append]
  have h2 : cartAdd (c ++ [(item, ⟨p1, a⟩)]) item p2 b
      = c ++ [(item, ⟨p1, a + b⟩)] := by
    unfold cartAdd
    rw [if_pos hany]
    rw [List.map_append, map_keyUpdate_id b h]
    simp
  have hfull : cartAdd (cartAdd c item p1 a) item p2 b
      = c ++ [(item, ⟨p1, a + b⟩)] := by rw [h1, h2]
  refine ⟨hfull, ?_⟩
  rw [hfull]
  exact lookup_append_single _ h

/-- C6 witness: adding Tea ×2 at 25 and then Tea ×3 at 40 to a cart
holding only Idli yields one Tea line with quantity 5 and price 25. -/
theorem cartAdd_twice_additive_witness :
    (∀ l ∈ ([("Idli", ⟨30, 1⟩)] : Cart), l.1 ≠ "Tea") ∧
    cartAdd (cartAdd [("Idli", ⟨30, 1⟩)] "Tea" 25 2) "Tea" 40 3 =
      [("Idli", ⟨30, 1⟩), ("Tea", ⟨25, 5⟩)] := by
  refine ⟨by decide, ?_⟩
  have h := (cartAdd_twice_additive [("Idli", ⟨30, 1⟩)] "Tea" 25 40 2 3
    (by decide)).1
  simpa using h

/-- C7: the subtotal is the sum of unit price × qty over the lines, and
adding then removing an item not already present restores the prior cart
and hence the prior subtotal. -/
theorem subtotal_sum_add_remove (c : Cart) (item : String) (p : ℚ) (q : ℕ)
    (h : ∀ l ∈ c, l.1 ≠ item) :
    compute_subtotal c = (c.map (fun l => l.2.price * (l.2.qty : ℚ))).sum ∧
    cartRemove (cartAdd c item p q) item = c ∧
    compute_subtotal (cartRemove (cartAdd c item p q) item) =
      compute_subtotal c := by
  have hnp : ∀ l ∈ c, ¬((fun l => l.1 == item) l = true) := by
    intro l hl
    simp only [beq_iff_eq]
    exact h l hl
  have hrm : cartRemove (cartAdd c item p q) item = c := by
    rw [cartAdd_not_mem p q h]
    unfold cartRemove
    rw [List.eraseP_append_right _ hnp]
    simp
  exact ⟨rfl, hrm, by rw [hrm]⟩

/-- C7 witness: adding Coffee to the Idli cart and removing it again
leaves the subtotal at 60. -/
theorem subtotal_sum_add_remove_witness :
    (∀ l ∈ ([("Idli", ⟨30, 2⟩)] : Cart), l.1 ≠ "Coffee") ∧
    compute_subtotal
        (cartRemove (cartAdd [("Idli", ⟨30, 2⟩)] "Coffee" 40 1) "Coffee") =
      compute_subtotal [("Idli", ⟨30, 2⟩)] := by
  refine ⟨by decide, ?_⟩
  exact (subtotal_sum_add_remove [("Idli", ⟨30, 2⟩)] "Coffee" 40 1
    (by decide)).2.2

/-- C8: with the menu prices for Veg Biryani (259) and Tea (25), the cart
Veg Biryani ×2 plus Tea ×1 has subtotal 543; BRAVO10 resolves to discount
543 × 10/100 = 54.3; the pricing computation gives taxable 488.70, tax
87.966 and total 576.666; display rounding yields 576.67. -/
theorem end_to_end_exact :
    menuPrice "Main Course" "Veg Biryani" = some 259 ∧
    menuPrice "Beverages" "Tea" = some 25 ∧
    compute_subtotal sBiryaniTea.cart = 543 ∧
    calc_discount 543 "BRAVO10" = (543 * (10 / 100), none) ∧
    sBravo10.discount_amount = 543 / 10 ∧
    billSummary sBravo10 =
      { subtotal := 543, discount := 543 / 10, after_discount := 4887 / 10,
        gst := 87966 / 1000, total := 576666 / 1000 } ∧
    round2 (576666 / 1000) = 57667 / 100 := by
  refine ⟨by decide, by decide, ?_, ?_, ?_, ?_, ?_⟩
  · rw [sBiryaniTea_eq]; exact subtotal_543
  · rw [calc_discount_543_BRAVO10]
    norm_num [Prod.ext_iff]
  · rw [sBravo10_eq]
  · rw [sBravo10_eq]
    simp only [billSummary]
    rw [show compute_subtotal [("Veg Biryani", ⟨259, 2⟩), ("Tea", ⟨25, 1⟩)]
      = 543 from subtotal_543]
    simp only [BillAmounts.mk.injEq, GST_RATE]
    norm_num [min_def, max_def]
  · norm_num [round2, round_eq]

/-- C9: `add_to_cart` and `remove_item` leave the applied coupon, the
stored discount amount, and the payment method exactly as they were. -/
theorem add_remove_frame (s : SessionState) (item : String) (p : ℚ) (q : ℕ) :
    (add_to_cart s item p q).applied_coupon = s.applied_coupon ∧
    (add_to_cart s item p q).discount_amount = s.discount_amount ∧
    (add_to_cart s item p q).payment_method = s.payment_method ∧
    (remove_item s item).applied_coupon = s.applied_coupon ∧
    (remove_item s item).discount_amount = s.discount_amount ∧
    (remove_item s item).payment_method = s.payment_method :=
  ⟨rfl, rfl, rfl, rfl, rfl, rfl⟩

/-- C10: `clear_cart` preserves the customer name while resetting the
cart, the coupon, the discount, the payment method, the bill-generated
flag and the bill number. -/
theorem clear_preserves_customer_name (s : SessionState) (ts : String) :
    (clear_cart s ts).customer_name = s.customer_name ∧
    (clear_cart s ts).cart = [] ∧
    (clear_cart s ts).applied_coupon = none ∧
    (clear_cart s ts).discount_amount = 0 ∧
    (clear_cart s ts).payment_method = none ∧
    (clear_cart s ts).bill_generated = false ∧
    (clear_cart s ts).bill_number = mkBillNumber ts :=
  ⟨rfl, rfl, rfl, rfl, rfl, rfl, rfl⟩

end Bravo
